import Mathlib

/-!
Shallow embedding of the code-execution session manager in
`src/components/PyodideProvider.tsx` (the `PyodideProvider` component):
the operations `runPython`, `runJavaScript` and `installPackage`.

The Pyodide interpreter engine is modelled as explicit state
(`EngineState`): the top-level namespace (the set of bound global names),
the current binding of `sys.stdout` (either the real stream or the
`StdoutCatcher` buffer installed by `runPython`), and the set of modules
installed in the engine.  User source text is opaque to the wrapper, so a
Python program is modelled by its behaviour: an oracle mapping the
engine's installed modules and the global namespace it is evaluated in to
an `EvalOutcome` (the stdout chunks it emits in order, the top-level
names it binds before finishing or failing, and its result or error
message).  The underlying `micropip` installer is likewise an oracle from
the generated install source text to success or an error message.
-/

deriving instance DecidableEq for Except

namespace PyodideProvider

/-- Binding of `sys.stdout` inside the interpreter: either the real
standard stream (`sys.__stdout__`) or the `StdoutCatcher` instance with
its accumulated buffer of written chunks, in write order. -/
inductive StdoutBinding where
  | dflt : StdoutBinding
  | catcher : List String → StdoutBinding
  deriving Repr, DecidableEq

/-- State of the embedded interpreter engine. -/
structure EngineState where
  /-- Names bound in the Python top-level namespace (`globals()`). -/
  globals : List String
  /-- Current binding of `sys.stdout`. -/
  stdout : StdoutBinding
  /-- Modules importable in the engine (grown by `micropip.install`). -/
  installed : List String
  deriving Repr, DecidableEq

/-- Session state of the `PyodideProvider` component: the React state
fields plus the engine it owns.  `pyodideReady` is `pyodide !== null`,
`loading` and `errored` are the `loading` / `error` state fields, and
`loadedPackages` is the component's installed-module cache. -/
structure Session where
  pyodideReady : Bool
  loading : Bool
  errored : Bool
  loadedPackages : List String
  engine : EngineState
  deriving Repr, DecidableEq

/-- Behaviour of one evaluation of a piece of user source text. -/
structure EvalOutcome where
  /-- Chunks written to `sys.stdout`, in the order they were emitted. -/
  emitted : List String
  /-- Top-level names the evaluation bound (before finishing or failing). -/
  binds : List String
  /-- Result value, or the error message the evaluation raised. -/
  result : Except String Nat
  deriving Repr, DecidableEq

/-- A user program, as the wrapper observes it: its outcome may depend on
which modules are installed in the engine and on the global namespace it
is evaluated against. -/
def Program : Type := List String → List String → EvalOutcome

/-- The underlying `micropip` installer, as an oracle from the install
source text passed to `runPythonAsync` to success or an error message. -/
def Installer : Type := String → Except String Unit

/-- `pyodide.runPythonAsync` on user code: the outcome's emissions go to
whatever `sys.stdout` currently is (appended to the catcher buffer when
redirected, dropped to the real console otherwise), its bindings extend
the global namespace, and its result or error is returned. -/
def evalCode (p : Program) (e : EngineState) : EngineState × Except String Nat :=
  let o := p e.installed e.globals
  ({ e with
      globals := e.globals ++ o.binds
      stdout :=
        match e.stdout with
        | StdoutBinding.catcher buf => StdoutBinding.catcher (buf ++ o.emitted)
        | StdoutBinding.dflt => StdoutBinding.dflt },
   o.result)

/-- The single-quote character, `Char.ofNat 39`. -/
def singleQuote : Char := Char.ofNat 39

/-- The single-quote character as a string. -/
def quoteStr : String := singleQuote.toString

/-- The substring tested by
`errorStr.includes("ModuleNotFoundError: No module named")`. -/
def mnfMarker : String := "ModuleNotFoundError: No module named"

/-- The literal part of the pattern `No module named ...` up to and
including the opening quote. -/
def mnfPattern : String := "No module named " ++ quoteStr

/-- The suffix of the character list after the first occurrence of
`pat`, or `none` when `pat` does not occur. -/
def dropAfterFirst (pat : List Char) : List Char → Option (List Char)
  | [] => if pat.isEmpty then some [] else none
  | c :: rest =>
    if pat.isPrefixOf (c :: rest) then some ((c :: rest).drop pat.length)
    else dropAfterFirst pat rest

/-- Whether `sub` occurs as a substring of `s` (JS `String.includes`). -/
def containsSub (s sub : String) : Bool :=
  (dropAfterFirst sub.data s.data).isSome

/-- The text of `s` after the first occurrence of `sep`, when `sep`
occurs in `s`. -/
def afterFirst (s sep : String) : Option (List Char) :=
  dropAfterFirst sep.data s.data

/-- The capture group of the regex `No module named <quote>([^<quote>]+)<quote>`
applied to the text following the opening quote: the non-empty run of
non-quote characters, provided a closing quote follows it. -/
def extractModule (t : List Char) : Option String :=
  let name := t.takeWhile (fun c => c != singleQuote)
  if name.length = 0 then none
  else if name.length = t.length then none
  else some (String.mk name)

/-- The missing-module test of `runPython`'s catch branch: the error
string must contain `mnfMarker`, and the module name is extracted by the
regex match (modelled at the pattern's first occurrence, the only one in
the interpreter's actual error messages). -/
def missingModuleName (err : String) : Option String :=
  if containsSub err mnfMarker then
    match afterFirst err mnfPattern with
    | some t => extractModule t
    | none => none
  else none

/-- The names the namespace-reset snippet of `runPython` preserves. -/
def preservedNames : List String :=
  ["sys", "js", "__name__", "__doc__", "io", "StdoutCatcher", "micropip"]

/-- The namespace-reset snippet: delete every global whose name is not in
`preservedNames`. -/
def resetNamespace (g : List String) : List String :=
  g.filter (fun k => preservedNames.contains k)

/-- The stdout-capture setup snippet: binds `sys`, `io` and
`StdoutCatcher` at top level and rebinds `sys.stdout` to a fresh
`StdoutCatcher` with an empty buffer. -/
def setupStdoutCapture (e : EngineState) : EngineState :=
  { e with
      globals := e.globals ++ ["sys", "io", "StdoutCatcher"]
      stdout := StdoutBinding.catcher [] }

/-- Engine state at the start of a `runPython` evaluation: capture setup
followed by the namespace reset. -/
def engineBeforeEval (e : EngineState) : EngineState :=
  let e0 := setupStdoutCapture e
  { e0 with globals := resetNamespace e0.globals }

/-- The `output = sys.stdout.getvalue(); sys.stdout = sys.__stdout__`
snippet: reads the catcher's accumulated text, rebinds `sys.stdout` to
the real stream, and (as a side effect of the assignment in the snippet)
binds the global name `output`. -/
def readAndRestoreStdout (e : EngineState) : EngineState × String :=
  let out :=
    match e.stdout with
    | StdoutBinding.catcher buf => String.join buf
    | StdoutBinding.dflt => ""
  ({ e with stdout := StdoutBinding.dflt, globals := e.globals ++ ["output"] }, out)

/-- Text before the interpolated package name in the install source
template of `installPackage`. -/
def installSourcePre : String :=
  "\n        import micropip\n        await micropip.install(\""

/-- Text after the interpolated package name in the install source
template of `installPackage`. -/
def installSourcePost : String := "\")\n      "

/-- The install source generated by `installPackage`: the package name is
interpolated verbatim between the fixed template parts. -/
def installSource (packageName : String) : String :=
  installSourcePre ++ packageName ++ installSourcePost

/-- Result of an `installPackage` call. -/
structure InstallResult where
  session : Session
  outcome : Except String Unit
  /-- Install source texts passed to the underlying installer. -/
  attempts : List String
  deriving Repr

/-- `installPackage` from `PyodideProvider.tsx`: throws when the engine
is absent, returns immediately when the package is cached in
`loadedPackages`, and otherwise delegates the generated install source to
the underlying installer, recording the package on success and rethrowing
the installer's error on failure. -/
def installPackage (inst : Installer) (s : Session) (packageName : String) :
    InstallResult :=
  if s.pyodideReady then
    if s.loadedPackages.contains packageName then
      { session := s, outcome := Except.ok (), attempts := [] }
    else
      match inst (installSource packageName) with
      | Except.ok _ =>
        { session :=
            { s with
                loadedPackages := s.loadedPackages ++ [packageName]
                engine :=
                  { s.engine with
                      installed := s.engine.installed ++ [packageName] } }
          outcome := Except.ok ()
          attempts := [installSource packageName] }
      | Except.error e =>
        { session := s, outcome := Except.error e
          attempts := [installSource packageName] }
  else
    { session := s, outcome := Except.error "Pyodide is not initialized"
      attempts := [] }

/-- First status line appended to the stdout buffer on the recovery path. -/
def statusLine1 (m : String) : String :=
  "\nAttempting to install missing package: " ++ m ++ "...\n"

/-- Second status line appended after a successful recovery install. -/
def statusLine2 (m : String) : String :=
  "Package " ++ m ++ " installed successfully. Rerunning your code...\n"

/-- The error message built by the recovery path's catch block. -/
def failMsg (m errStr : String) : String :=
  "Failed to install package " ++ m ++ ": " ++ errStr

/-- Result of a `runPython` call, with bookkeeping of the observable
interactions: install sources passed to the underlying installer,
`installPackage` invocations, and the global namespace at the start of
each evaluation of the user code. -/
structure RunResult where
  session : Session
  /-- The returned `{result, stdout}` pair, or the thrown error. -/
  outcome : Except String (Nat × String)
  /-- Install source texts passed to the underlying installer. -/
  attempts : List String
  /-- Number of `installPackage` invocations. -/
  installCalls : Nat
  /-- Globals at the start of each evaluation of the user code. -/
  evalGlobals : List (List String)
  deriving Repr

/-- The catch branch of `runPython`, entered when the first evaluation
failed with error `err`, with engine state `e2` as the failed evaluation
left it.  On a missing-module match it appends the status lines to the
stdout accumulator, installs the module, and re-evaluates the user code
against the engine state as the install left it; any other error is
rethrown.  `evalGlobals` here records only the retry evaluation. -/
def runPythonCatch (inst : Installer) (p : Program) (s : Session)
    (e2 : EngineState) (err : String) : RunResult :=
  match missingModuleName err with
  | some moduleName =>
    let ir := installPackage inst { s with engine := e2 } moduleName
    match ir.outcome with
    | Except.error installErr =>
      { session := ir.session
        outcome := Except.error (failMsg moduleName installErr)
        attempts := ir.attempts, installCalls := 1, evalGlobals := [] }
    | Except.ok _ =>
      match evalCode p ir.session.engine with
      | (e4, Except.ok v2) =>
        let (e5, newStdout) := readAndRestoreStdout e4
        { session := { ir.session with engine := e5 }
          outcome :=
            Except.ok (v2, statusLine1 moduleName ++ statusLine2 moduleName ++ newStdout)
          attempts := ir.attempts, installCalls := 1
          evalGlobals := [ir.session.engine.globals] }
      | (e4, Except.error err2) =>
        { session := { ir.session with engine := e4 }
          outcome := Except.error (failMsg moduleName err2)
          attempts := ir.attempts, installCalls := 1
          evalGlobals := [ir.session.engine.globals] }
  | none =>
    { session := { s with engine := e2 }, outcome := Except.error err
      attempts := [], installCalls := 0, evalGlobals := [] }

/-- `runPython` from `PyodideProvider.tsx`: throws when the engine is
absent; otherwise installs a fresh `StdoutCatcher`, resets the namespace,
evaluates the user code, and on success reads the captured stdout and
restores `sys.stdout`.  On failure it enters the catch branch
(`runPythonCatch`). -/
def runPython (inst : Installer) (p : Program) (s : Session) : RunResult :=
  if s.pyodideReady then
    let e1 := engineBeforeEval s.engine
    match evalCode p e1 with
    | (e2, Except.ok v) =>
      let (e3, out) := readAndRestoreStdout e2
      { session := { s with engine := e3 }, outcome := Except.ok (v, out)
        attempts := [], installCalls := 0, evalGlobals := [e1.globals] }
    | (e2, Except.error err) =>
      let c := runPythonCatch inst p s e2 err
      { c with evalGlobals := e1.globals :: c.evalGlobals }
  else
    { session := s, outcome := Except.error "Pyodide is not initialized"
      attempts := [], installCalls := 0, evalGlobals := [] }

/-- Host (browser) state observable by `runJavaScript`: the current
binding of `console.log`.  Depth `0` is the host's original logging
primitive; depth `n + 1` is the capturing wrapper installed around the
binding of depth `n`. -/
structure HostState where
  consoleLogDepth : Nat
  deriving Repr, DecidableEq

/-- Behaviour of one `runJavaScript` input: either the source fails to
compile (`new Function` throws), or the wrapped body runs, emitting the
given `console.log` lines and then returning a value or throwing. -/
inductive JsProgram where
  | compileError : String → JsProgram
  | runs : List String → Except String Nat → JsProgram
  deriving Repr

/-- Result record of `runJavaScript`, matching the TypeScript shape
`{result?, stdout?, error?}` plus the resulting host state. -/
structure JsResult where
  host : HostState
  result : Option Nat
  stdout : Option String
  error : Option String
  deriving Repr, DecidableEq

/-- `runJavaScript` from `PyodideProvider.tsx`.  On compile failure the
outer catch returns `{error}` with the host untouched.  Otherwise the
generated body saves `console.log`, installs the capturing wrapper, runs
the user code, and on success restores `console.log` and returns
`{result, stdout}`; when the user code throws, the inner catch returns
`{error}` directly, leaving the wrapper installed. -/
def runJavaScript (p : JsProgram) (h : HostState) : JsResult :=
  match p with
  | JsProgram.compileError msg =>
    { host := h, result := none, stdout := none, error := some msg }
  | JsProgram.runs logs res =>
    let original := h.consoleLogDepth
    let hPatched : HostState := { consoleLogDepth := original + 1 }
    match res with
    | Except.ok v =>
      { host := { consoleLogDepth := original }
        result := some v
        stdout := some (String.intercalate "\n" logs)
        error := none }
    | Except.error e =>
      { host := hPatched, result := none, stdout := none, error := some e }

/-! ### Concrete fixtures used in counterexamples and witnesses -/

/-- An installer that always succeeds. -/
def alwaysOkInstaller : Installer := fun _ => Except.ok ()

/-- An installer stubbed to always fail. -/
def alwaysFailInstaller : Installer := fun _ => Except.error "network error"

/-- Engine state after initialization: the names bound by the bootstrap
snippets, the real stdout, no extra modules. -/
def baselineEngine : EngineState :=
  { globals := ["sys", "js", "__name__", "__doc__", "io", "micropip"]
    stdout := StdoutBinding.dflt
    installed := [] }

/-- A freshly initialized session in the Ready state. -/
def readySession : Session :=
  { pyodideReady := true, loading := false, errored := false
    loadedPackages := [], engine := baselineEngine }

/-- The interpreter's missing-module error message for module `m`. -/
def mnfError (m : String) : String :=
  mnfMarker ++ " " ++ quoteStr ++ m ++ quoteStr

/-- Behaviour of `print(chr(97)); print(chr(98))`-style code: emits the
lines `a` and `b` in order and succeeds. -/
def progPrintAB : Program := fun _ _ =>
  { emitted := ["a\n", "b\n"], binds := [], result := Except.ok 0 }

/-- Behaviour of code ending in `print` of `ok`: emits `ok` and succeeds. -/
def progPrintOk : Program := fun _ _ =>
  { emitted := ["ok\n"], binds := [], result := Except.ok 7 }

/-- Behaviour of `1/0`: no output, no bindings, raises. -/
def progDivZero : Program := fun _ _ =>
  { emitted := [], binds := [], result := Except.error "ZeroDivisionError: division by zero" }

/-- Behaviour of code that first binds the top-level name `leftover` and
then imports the missing module `m`; once `m` is installed it succeeds,
returning `1` exactly when the name `leftover` is visible in the
namespace it runs in. -/
def progLeftover : Program := fun installed g =>
  if installed.contains "m" then
    { emitted := [], binds := []
      result := Except.ok (if g.contains "leftover" then 1 else 0) }
  else
    { emitted := [], binds := ["leftover"], result := Except.error (mnfError "m") }

/-- Behaviour of `import nonexistent_module_xyz`: always fails with the
missing-module error. -/
def progMissingOnly : Program := fun _ _ =>
  { emitted := [], binds := [], result := Except.error (mnfError "nonexistent_module_xyz") }


/-! ### Helper lemmas -/

theorem engineBeforeEval_installed (e : EngineState) :
    (engineBeforeEval e).installed = e.installed := rfl

theorem engineBeforeEval_stdout (e : EngineState) :
    (engineBeforeEval e).stdout = StdoutBinding.catcher [] := rfl

theorem engineBeforeEval_globals (e : EngineState) :
    (engineBeforeEval e).globals =
      resetNamespace (e.globals ++ ["sys", "io", "StdoutCatcher"]) := rfl

theorem mem_engineBeforeEval_globals {e : EngineState} {n : String}
    (h : n ∈ (engineBeforeEval e).globals) : preservedNames.contains n = true := by
  rw [engineBeforeEval_globals] at h
  exact (List.mem_filter.mp h).2

/-- Success branch of `runPython`: the first evaluation succeeds, the
captured stdout is read and `sys.stdout` is restored. -/
theorem runPython_ok_eq (inst : Installer) (p : Program) (s : Session)
    (hready : s.pyodideReady = true) (em bs : List String) (v : Nat)
    (hp : p s.engine.installed (engineBeforeEval s.engine).globals =
      { emitted := em, binds := bs, result := Except.ok v }) :
    runPython inst p s =
      { session := { s with engine :=
          { globals := (engineBeforeEval s.engine).globals ++ bs ++ ["output"]
            stdout := StdoutBinding.dflt
            installed := s.engine.installed } }
        outcome := Except.ok (v, String.join em)
        attempts := [], installCalls := 0
        evalGlobals := [(engineBeforeEval s.engine).globals] } := by
  simp [runPython, hready, evalCode, engineBeforeEval_installed, hp, readAndRestoreStdout,
        engineBeforeEval_stdout]

/-- Failure branch without recovery: the error does not match the
missing-module shape and is rethrown; `sys.stdout` stays redirected. -/
theorem runPython_noRecovery_eq (inst : Installer) (p : Program) (s : Session)
    (hready : s.pyodideReady = true) (em1 bs1 : List String) (err : String)
    (hp1 : p s.engine.installed (engineBeforeEval s.engine).globals =
      { emitted := em1, binds := bs1, result := Except.error err })
    (hm : missingModuleName err = none) :
    runPython inst p s =
      { session := { s with engine :=
          { globals := (engineBeforeEval s.engine).globals ++ bs1
            stdout := StdoutBinding.catcher em1
            installed := s.engine.installed } }
        outcome := Except.error err
        attempts := [], installCalls := 0
        evalGlobals := [(engineBeforeEval s.engine).globals] } := by
  simp [runPython, hready, evalCode, engineBeforeEval_installed, hp1,
        engineBeforeEval_stdout, runPythonCatch, hm]

/-- Recovery branch, underlying installer fails: the wrapped install
error is thrown; `sys.stdout` stays redirected. -/
theorem runPython_installFail_eq (inst : Installer) (p : Program) (s : Session)
    (hready : s.pyodideReady = true) (em1 bs1 : List String) (err m ie : String)
    (hp1 : p s.engine.installed (engineBeforeEval s.engine).globals =
      { emitted := em1, binds := bs1, result := Except.error err })
    (hm : missingModuleName err = some m)
    (hnew : s.loadedPackages.contains m = false)
    (hi : inst (installSource m) = Except.error ie) :
    runPython inst p s =
      { session := { s with engine :=
          { globals := (engineBeforeEval s.engine).globals ++ bs1
            stdout := StdoutBinding.catcher em1
            installed := s.engine.installed } }
        outcome := Except.error (failMsg m ie)
        attempts := [installSource m], installCalls := 1
        evalGlobals := [(engineBeforeEval s.engine).globals] } := by
  have hns : ¬ m ∈ s.loadedPackages := by simpa using hnew
  simp [runPython, hready, evalCode, engineBeforeEval_installed, hp1,
        engineBeforeEval_stdout, runPythonCatch, hm, installPackage, hns, hi]

/-- Recovery branch, install succeeds but the retry evaluation fails:
the second failure is wrapped and thrown; `sys.stdout` stays
redirected.  The retry runs against the namespace the first evaluation
left behind, extended bindings included. -/
theorem runPython_retryFail_eq (inst : Installer) (p : Program) (s : Session)
    (hready : s.pyodideReady = true) (em1 bs1 em2 bs2 : List String) (err m e2 : String)
    (hp1 : p s.engine.installed (engineBeforeEval s.engine).globals =
      { emitted := em1, binds := bs1, result := Except.error err })
    (hm : missingModuleName err = some m)
    (hnew : s.loadedPackages.contains m = false)
    (hi : inst (installSource m) = Except.ok ())
    (hp2 : p (s.engine.installed ++ [m]) ((engineBeforeEval s.engine).globals ++ bs1) =
      { emitted := em2, binds := bs2, result := Except.error e2 }) :
    runPython inst p s =
      { session := { s with
          loadedPackages := s.loadedPackages ++ [m]
          engine :=
            { globals := (engineBeforeEval s.engine).globals ++ bs1 ++ bs2
              stdout := StdoutBinding.catcher (em1 ++ em2)
              installed := s.engine.installed ++ [m] } }
        outcome := Except.error (failMsg m e2)
        attempts := [installSource m], installCalls := 1
        evalGlobals := [(engineBeforeEval s.engine).globals,
                        (engineBeforeEval s.engine).globals ++ bs1] } := by
  have hns : ¬ m ∈ s.loadedPackages := by simpa using hnew
  simp [runPython, hready, evalCode, engineBeforeEval_installed, hp1,
        engineBeforeEval_stdout, runPythonCatch, hm, installPackage, hns, hi, hp2]

/-- Recovery branch, install and retry both succeed: the status lines
precede the whole catcher buffer (first-attempt output followed by the
retry's output) in the returned stdout, and `sys.stdout` is restored. -/
theorem runPython_retryOk_eq (inst : Installer) (p : Program) (s : Session)
    (hready : s.pyodideReady = true) (em1 bs1 em2 bs2 : List String) (err m : String) (v2 : Nat)
    (hp1 : p s.engine.installed (engineBeforeEval s.engine).globals =
      { emitted := em1, binds := bs1, result := Except.error err })
    (hm : missingModuleName err = some m)
    (hnew : s.loadedPackages.contains m = false)
    (hi : inst (installSource m) = Except.ok ())
    (hp2 : p (s.engine.installed ++ [m]) ((engineBeforeEval s.engine).globals ++ bs1) =
      { emitted := em2, binds := bs2, result := Except.ok v2 }) :
    runPython inst p s =
      { session := { s with
          loadedPackages := s.loadedPackages ++ [m]
          engine :=
            { globals := (engineBeforeEval s.engine).globals ++ bs1 ++ bs2 ++ ["output"]
              stdout := StdoutBinding.dflt
              installed := s.engine.installed ++ [m] } }
        outcome := Except.ok (v2, statusLine1 m ++ statusLine2 m ++ String.join (em1 ++ em2))
        attempts := [installSource m], installCalls := 1
        evalGlobals := [(engineBeforeEval s.engine).globals,
                        (engineBeforeEval s.engine).globals ++ bs1] } := by
  have hns : ¬ m ∈ s.loadedPackages := by simpa using hnew
  simp [runPython, hready, evalCode, engineBeforeEval_installed, hp1,
        engineBeforeEval_stdout, runPythonCatch, hm, installPackage, hns, hi, hp2,
        readAndRestoreStdout]

/-- Recovery branch with the module already cached: `installPackage`
returns without touching the installer, and the retry runs with the
engine's installed modules unchanged; retry success case. -/
theorem runPython_cachedRetryOk_eq (inst : Installer) (p : Program) (s : Session)
    (hready : s.pyodideReady = true) (em1 bs1 em2 bs2 : List String) (err m : String) (v2 : Nat)
    (hp1 : p s.engine.installed (engineBeforeEval s.engine).globals =
      { emitted := em1, binds := bs1, result := Except.error err })
    (hm : missingModuleName err = some m)
    (hc : s.loadedPackages.contains m = true)
    (hp2 : p s.engine.installed ((engineBeforeEval s.engine).globals ++ bs1) =
      { emitted := em2, binds := bs2, result := Except.ok v2 }) :
    runPython inst p s =
      { session := { s with engine :=
          { globals := (engineBeforeEval s.engine).globals ++ bs1 ++ bs2 ++ ["output"]
            stdout := StdoutBinding.dflt
            installed := s.engine.installed } }
        outcome := Except.ok (v2, statusLine1 m ++ statusLine2 m ++ String.join (em1 ++ em2))
        attempts := [], installCalls := 1
        evalGlobals := [(engineBeforeEval s.engine).globals,
                        (engineBeforeEval s.engine).globals ++ bs1] } := by
  have hcm : m ∈ s.loadedPackages := by simpa using hc
  simp [runPython, hready, evalCode, engineBeforeEval_installed, hp1,
        engineBeforeEval_stdout, runPythonCatch, hm, installPackage, hcm, hp2,
        readAndRestoreStdout]

/-- Recovery branch with the module already cached, retry failure case. -/
theorem runPython_cachedRetryFail_eq (inst : Installer) (p : Program) (s : Session)
    (hready : s.pyodideReady = true) (em1 bs1 em2 bs2 : List String) (err m e2 : String)
    (hp1 : p s.engine.installed (engineBeforeEval s.engine).globals =
      { emitted := em1, binds := bs1, result := Except.error err })
    (hm : missingModuleName err = some m)
    (hc : s.loadedPackages.contains m = true)
    (hp2 : p s.engine.installed ((engineBeforeEval s.engine).globals ++ bs1) =
      { emitted := em2, binds := bs2, result := Except.error e2 }) :
    runPython inst p s =
      { session := { s with engine :=
          { globals := (engineBeforeEval s.engine).globals ++ bs1 ++ bs2
            stdout := StdoutBinding.catcher (em1 ++ em2)
            installed := s.engine.installed } }
        outcome := Except.error (failMsg m e2)
        attempts := [], installCalls := 1
        evalGlobals := [(engineBeforeEval s.engine).globals,
                        (engineBeforeEval s.engine).globals ++ bs1] } := by
  have hcm : m ∈ s.loadedPackages := by simpa using hc
  simp [runPython, hready, evalCode, engineBeforeEval_installed, hp1,
        engineBeforeEval_stdout, runPythonCatch, hm, installPackage, hcm, hp2]

/-- `installPackage` never touches the status fields, and at most adds
its own package name to the cache. -/
theorem installPackage_session_shape (inst : Installer) (s : Session) (n : String) :
    (installPackage inst s n).session.pyodideReady = s.pyodideReady ∧
    (installPackage inst s n).session.loading = s.loading ∧
    (installPackage inst s n).session.errored = s.errored ∧
    ((installPackage inst s n).session.loadedPackages = s.loadedPackages ∨
      (installPackage inst s n).session.loadedPackages = s.loadedPackages ++ [n]) := by
  simp only [installPackage]
  split
  · split
    · simp
    · split <;> simp
  · simp

/-- `runPython` never touches the status fields, and at most adds one
module name to the cache (via the recovery install). -/
theorem runPython_session_shape (inst : Installer) (p : Program) (s : Session) :
    (runPython inst p s).session.pyodideReady = s.pyodideReady ∧
    (runPython inst p s).session.loading = s.loading ∧
    (runPython inst p s).session.errored = s.errored ∧
    ((runPython inst p s).session.loadedPackages = s.loadedPackages ∨
      ∃ m, (runPython inst p s).session.loadedPackages = s.loadedPackages ++ [m]) := by
  simp only [runPython]
  split
  · split
    · simp
    · rename_i e4 err2 heq
      simp only [runPythonCatch]
      split
      · rename_i moduleName hmeq
        have h := installPackage_session_shape inst { s with engine := e4 } moduleName
        split
        · refine ⟨h.1, h.2.1, h.2.2.1, ?_⟩
          rcases h.2.2.2 with h4 | h4
          · exact Or.inl h4
          · exact Or.inr ⟨moduleName, h4⟩
        · split
          · refine ⟨h.1, h.2.1, h.2.2.1, ?_⟩
            rcases h.2.2.2 with h4 | h4
            · exact Or.inl h4
            · exact Or.inr ⟨moduleName, h4⟩
          · refine ⟨h.1, h.2.1, h.2.2.1, ?_⟩
            rcases h.2.2.2 with h4 | h4
            · exact Or.inl h4
            · exact Or.inr ⟨moduleName, h4⟩
      · simp
  · simp

/-- Whenever the session is ready, the first evaluation of a `runPython`
call receives the reset namespace of `engineBeforeEval`. -/
theorem runPython_evalGlobals_head (inst : Installer) (p : Program) (s : Session)
    (hready : s.pyodideReady = true) :
    (runPython inst p s).evalGlobals.head? =
      some (engineBeforeEval s.engine).globals := by
  simp only [runPython, hready, if_true]
  split <;> simp

/-! ### Claim C1 (corrected) -/

/-- C1 counterexample: the claim that `sys.stdout` is restored on every
exit path fails on the plain-failure branch.  Before the call the
session's stdout binding is the real stream; `runPython` on code that
raises `ZeroDivisionError` throws, and the `StdoutCatcher` is left
installed: the binding after the call is not the real stream. -/
theorem runPython_stdout_not_restored_cex :
    readySession.engine.stdout = StdoutBinding.dflt ∧
    (runPython alwaysOkInstaller progDivZero readySession).session.engine.stdout ≠
      StdoutBinding.dflt := by
  constructor
  · rfl
  · decide

/-- C1 amended: `runPython` restores `sys.stdout` to the real stream
exactly on the successful exit paths (plain success and successful
recovery retry); on every failure exit the catcher remains bound until
the next call rebinds it. -/
theorem runPython_stdout_restored_iff (inst : Installer) (p : Program) (s : Session)
    (hready : s.pyodideReady = true) :
    ((runPython inst p s).session.engine.stdout = StdoutBinding.dflt ↔
      ∃ r, (runPython inst p s).outcome = Except.ok r) := by
  have hp0 : p s.engine.installed (engineBeforeEval s.engine).globals =
      ⟨(p s.engine.installed (engineBeforeEval s.engine).globals).emitted,
       (p s.engine.installed (engineBeforeEval s.engine).globals).binds,
       (p s.engine.installed (engineBeforeEval s.engine).globals).result⟩ := rfl
  cases h1 : (p s.engine.installed (engineBeforeEval s.engine).globals).result with
  | ok v =>
    rw [h1] at hp0
    rw [runPython_ok_eq inst p s hready _ _ v hp0]
    simp
  | error err =>
    rw [h1] at hp0
    cases hm : missingModuleName err with
    | none =>
      rw [runPython_noRecovery_eq inst p s hready _ _ err hp0 hm]
      simp
    | some m =>
      by_cases hc : s.loadedPackages.contains m = true
      · have hp20 : p s.engine.installed
            ((engineBeforeEval s.engine).globals ++
              (p s.engine.installed (engineBeforeEval s.engine).globals).binds) =
            ⟨(p s.engine.installed ((engineBeforeEval s.engine).globals ++
                (p s.engine.installed (engineBeforeEval s.engine).globals).binds)).emitted,
             (p s.engine.installed ((engineBeforeEval s.engine).globals ++
                (p s.engine.installed (engineBeforeEval s.engine).globals).binds)).binds,
             (p s.engine.installed ((engineBeforeEval s.engine).globals ++
                (p s.engine.installed (engineBeforeEval s.engine).globals).binds)).result⟩ := rfl
        cases h2 : (p s.engine.installed
            ((engineBeforeEval s.engine).globals ++
              (p s.engine.installed (engineBeforeEval s.engine).globals).binds)).result with
        | ok v2 =>
          rw [h2] at hp20
          rw [runPython_cachedRetryOk_eq inst p s hready _ _ _ _ err m v2 hp0 hm hc hp20]
          simp
        | error e2 =>
          rw [h2] at hp20
          rw [runPython_cachedRetryFail_eq inst p s hready _ _ _ _ err m e2 hp0 hm hc hp20]
          simp
      · have hnew : s.loadedPackages.contains m = false := by
          simpa using hc
        cases hi : inst (installSource m) with
        | error ie =>
          rw [runPython_installFail_eq inst p s hready _ _ err m ie hp0 hm hnew hi]
          simp
        | ok u =>
          cases u
          have hp20 : p (s.engine.installed ++ [m])
              ((engineBeforeEval s.engine).globals ++
                (p s.engine.installed (engineBeforeEval s.engine).globals).binds) =
              ⟨(p (s.engine.installed ++ [m]) ((engineBeforeEval s.engine).globals ++
                  (p s.engine.installed (engineBeforeEval s.engine).globals).binds)).emitted,
               (p (s.engine.installed ++ [m]) ((engineBeforeEval s.engine).globals ++
                  (p s.engine.installed (engineBeforeEval s.engine).globals).binds)).binds,
               (p (s.engine.installed ++ [m]) ((engineBeforeEval s.engine).globals ++
                  (p s.engine.installed (engineBeforeEval s.engine).globals).binds)).result⟩ := rfl
          cases h2 : (p (s.engine.installed ++ [m])
              ((engineBeforeEval s.engine).globals ++
                (p s.engine.installed (engineBeforeEval s.engine).globals).binds)).result with
          | ok v2 =>
            rw [h2] at hp20
            rw [runPython_retryOk_eq inst p s hready _ _ _ _ err m v2 hp0 hm hnew hi hp20]
            simp
          | error e2 =>
            rw [h2] at hp20
            rw [runPython_retryFail_eq inst p s hready _ _ _ _ err m e2 hp0 hm hnew hi hp20]
            simp

/-- C1 amended, witness: the iff instantiated on a ready session with a
succeeding program. -/
theorem runPython_stdout_restored_iff_witness :
    readySession.pyodideReady = true ∧
    ((runPython alwaysOkInstaller progPrintAB readySession).session.engine.stdout =
        StdoutBinding.dflt ↔
      ∃ r, (runPython alwaysOkInstaller progPrintAB readySession).outcome = Except.ok r) :=
  ⟨rfl, runPython_stdout_restored_iff alwaysOkInstaller progPrintAB readySession rfl⟩

/-! ### Claim C2 (corrected) -/

/-- C2 counterexample: the retry is not evaluated against a freshly
reset namespace.  `progLeftover` binds the non-preserved top-level name
`leftover` before failing on the missing module `m`; a fresh reset would
delete that name, so under the claim the retry would return `0`.  The
actual call returns `1`: the retry saw the `leftover` binding. -/
theorem runPython_retry_not_reset_cex :
    (runPython alwaysOkInstaller progLeftover readySession).outcome =
      Except.ok (1, statusLine1 "m" ++ statusLine2 "m") ∧
    preservedNames.contains "leftover" = false := by
  constructor
  · decide
  · rfl

/-- C2 amended: on the recovery path `runPython` installs the named
module (exactly one delegation to the installer) and re-evaluates the
same source, but against the namespace as the first, failed evaluation
left it — the first evaluation's starting namespace extended by the
bindings the failed run created — with no second reset. -/
theorem runPython_retry_namespace (inst : Installer) (p : Program) (s : Session)
    (hready : s.pyodideReady = true) (em1 bs1 : List String) (err m : String)
    (hp1 : p s.engine.installed (engineBeforeEval s.engine).globals =
      { emitted := em1, binds := bs1, result := Except.error err })
    (hm : missingModuleName err = some m)
    (hnew : s.loadedPackages.contains m = false)
    (hi : inst (installSource m) = Except.ok ()) :
    (runPython inst p s).evalGlobals =
      [(engineBeforeEval s.engine).globals,
       (engineBeforeEval s.engine).globals ++ bs1] ∧
    (runPython inst p s).attempts = [installSource m] := by
  have hp20 : p (s.engine.installed ++ [m])
      ((engineBeforeEval s.engine).globals ++ bs1) =
      ⟨(p (s.engine.installed ++ [m]) ((engineBeforeEval s.engine).globals ++ bs1)).emitted,
       (p (s.engine.installed ++ [m]) ((engineBeforeEval s.engine).globals ++ bs1)).binds,
       (p (s.engine.installed ++ [m]) ((engineBeforeEval s.engine).globals ++ bs1)).result⟩ := rfl
  cases h2 : (p (s.engine.installed ++ [m])
      ((engineBeforeEval s.engine).globals ++ bs1)).result with
  | ok v2 =>
    rw [h2] at hp20
    rw [runPython_retryOk_eq inst p s hready em1 bs1 _ _ err m v2 hp1 hm hnew hi hp20]
    exact ⟨rfl, rfl⟩
  | error e2 =>
    rw [h2] at hp20
    rw [runPython_retryFail_eq inst p s hready em1 bs1 _ _ err m e2 hp1 hm hnew hi hp20]
    exact ⟨rfl, rfl⟩

/-- C2 amended, witness: `progLeftover` on a fresh ready session; the
retry namespace is the reset namespace extended by `leftover`. -/
theorem runPython_retry_namespace_witness :
    readySession.pyodideReady = true ∧
    progLeftover readySession.engine.installed (engineBeforeEval readySession.engine).globals =
      { emitted := [], binds := ["leftover"], result := Except.error (mnfError "m") } ∧
    missingModuleName (mnfError "m") = some "m" ∧
    readySession.loadedPackages.contains "m" = false ∧
    ((runPython alwaysOkInstaller progLeftover readySession).evalGlobals =
        [(engineBeforeEval readySession.engine).globals,
         (engineBeforeEval readySession.engine).globals ++ ["leftover"]] ∧
      (runPython alwaysOkInstaller progLeftover readySession).attempts =
        [installSource "m"]) :=
  ⟨rfl, rfl, by decide, rfl,
    runPython_retry_namespace alwaysOkInstaller progLeftover readySession rfl
      [] ["leftover"] (mnfError "m") "m" rfl (by decide) rfl rfl⟩

/-! ### Claim C3 (confirmed) -/

/-- C3: when the first evaluation fails with a missing-module error for
an uncached module `m`, `runPython` invokes `installPackage` exactly
once, delegates exactly one install (for `m`) to the underlying
installer, and evaluates the user code at most twice.  If the installer
fails, that failure is propagated (wrapped, naming `m`) with no
re-evaluation; if the retry evaluation fails for any reason, that second
failure is propagated (wrapped, naming `m`) and nothing further is
attempted: the recovery never loops. -/
theorem runPython_single_retry (inst : Installer) (p : Program) (s : Session)
    (hready : s.pyodideReady = true) (em1 bs1 : List String) (err m : String)
    (hp1 : p s.engine.installed (engineBeforeEval s.engine).globals =
      { emitted := em1, binds := bs1, result := Except.error err })
    (hm : missingModuleName err = some m)
    (hnew : s.loadedPackages.contains m = false) :
    (runPython inst p s).installCalls = 1 ∧
    (runPython inst p s).attempts = [installSource m] ∧
    (runPython inst p s).evalGlobals.length ≤ 2 ∧
    (∀ ie, inst (installSource m) = Except.error ie →
      (runPython inst p s).outcome = Except.error (failMsg m ie) ∧
      (runPython inst p s).evalGlobals.length = 1) ∧
    (∀ e2, inst (installSource m) = Except.ok () →
      (p (s.engine.installed ++ [m])
          ((engineBeforeEval s.engine).globals ++ bs1)).result = Except.error e2 →
      (runPython inst p s).outcome = Except.error (failMsg m e2) ∧
      (runPython inst p s).evalGlobals.length = 2) := by
  cases hi : inst (installSource m) with
  | error ie0 =>
    rw [runPython_installFail_eq inst p s hready em1 bs1 err m ie0 hp1 hm hnew hi]
    refine ⟨rfl, rfl, by simp, ?_, ?_⟩
    · intro ie hie
      injection hie with h
      subst h
      exact ⟨rfl, rfl⟩
    · intro e2 hok h2f
      exact Except.noConfusion hok
  | ok u =>
    cases u
    have hp20 : p (s.engine.installed ++ [m])
        ((engineBeforeEval s.engine).globals ++ bs1) =
        ⟨(p (s.engine.installed ++ [m]) ((engineBeforeEval s.engine).globals ++ bs1)).emitted,
         (p (s.engine.installed ++ [m]) ((engineBeforeEval s.engine).globals ++ bs1)).binds,
         (p (s.engine.installed ++ [m]) ((engineBeforeEval s.engine).globals ++ bs1)).result⟩ := rfl
    cases h2 : (p (s.engine.installed ++ [m])
        ((engineBeforeEval s.engine).globals ++ bs1)).result with
    | ok v2 =>
      rw [h2] at hp20
      rw [runPython_retryOk_eq inst p s hready em1 bs1 _ _ err m v2 hp1 hm hnew hi hp20]
      refine ⟨rfl, rfl, by simp, ?_, ?_⟩
      · intro ie hie
        exact Except.noConfusion hie
      · intro e2 hok h2f
        exact Except.noConfusion h2f
    | error e2c =>
      rw [h2] at hp20
      rw [runPython_retryFail_eq inst p s hready em1 bs1 _ _ err m e2c hp1 hm hnew hi hp20]
      refine ⟨rfl, rfl, by simp, ?_, ?_⟩
      · intro ie hie
        exact Except.noConfusion hie
      · intro e2 hok h2f
        injection h2f with h
        subst h
        exact ⟨rfl, rfl⟩

/-- C3, witness: `import nonexistent_module_xyz` with the installer
stubbed to always fail: one install attempt for that module, a final
error naming it, one evaluation. -/
theorem runPython_single_retry_witness :
    readySession.pyodideReady = true ∧
    missingModuleName (mnfError "nonexistent_module_xyz") = some "nonexistent_module_xyz" ∧
    readySession.loadedPackages.contains "nonexistent_module_xyz" = false ∧
    alwaysFailInstaller (installSource "nonexistent_module_xyz") =
      Except.error "network error" ∧
    ((runPython alwaysFailInstaller progMissingOnly readySession).attempts =
        [installSource "nonexistent_module_xyz"] ∧
      (runPython alwaysFailInstaller progMissingOnly readySession).outcome =
        Except.error (failMsg "nonexistent_module_xyz" "network error") ∧
      (runPython alwaysFailInstaller progMissingOnly readySession).evalGlobals.length = 1) := by
  have H := runPython_single_retry alwaysFailInstaller progMissingOnly readySession rfl
    [] [] (mnfError "nonexistent_module_xyz") "nonexistent_module_xyz" rfl (by decide) rfl
  exact ⟨rfl, by decide, rfl, rfl,
    H.2.1, (H.2.2.2.1 "network error" rfl).1, (H.2.2.2.1 "network error" rfl).2⟩

/-! ### Claim C4 (confirmed) -/

/-- C4: between two sequential `runPython` calls the namespace is reset:
whatever the first call did, the second call's (first) evaluation
receives exactly the reset namespace of `engineBeforeEval`, and no
non-preserved name — in particular no top-level binding created by the
first call's user code — is an element of it. -/
theorem runPython_isolation (inst1 inst2 : Installer) (p1 p2 : Program) (s : Session)
    (n : String) (hready : s.pyodideReady = true)
    (hn : preservedNames.contains n = false) :
    (runPython inst2 p2 (runPython inst1 p1 s).session).evalGlobals.head? =
      some (engineBeforeEval (runPython inst1 p1 s).session.engine).globals ∧
    ¬ n ∈ (engineBeforeEval (runPython inst1 p1 s).session.engine).globals := by
  have h := runPython_session_shape inst1 p1 s
  have hr : (runPython inst1 p1 s).session.pyodideReady = true := by rw [h.1, hready]
  refine ⟨runPython_evalGlobals_head inst2 p2 _ hr, ?_⟩
  intro hmem
  have hcon := mem_engineBeforeEval_globals hmem
  rw [hn] at hcon
  exact Bool.noConfusion hcon

/-- C4, witness: after a first call that bound `x` at top level, the
name `x` is not in the second call's starting namespace. -/
theorem runPython_isolation_witness :
    readySession.pyodideReady = true ∧
    preservedNames.contains "x" = false ∧
    ¬ "x" ∈ (engineBeforeEval
      (runPython alwaysOkInstaller progDivZero readySession).session.engine).globals :=
  ⟨rfl, rfl,
    (runPython_isolation alwaysOkInstaller alwaysOkInstaller progDivZero progPrintOk
      readySession "x" rfl rfl).2⟩

/-! ### Claim C5 (corrected) -/

/-- C5 counterexample: when the evaluated user code throws, the inner
catch returns the error record without running the restore line, so the
capturing wrapper stays installed: starting from the original binding
(depth 0), the binding after the call is not the original one. -/
theorem runJavaScript_consoleLog_not_restored_cex :
    (runJavaScript (JsProgram.runs [] (Except.error "Error: boom"))
        { consoleLogDepth := 0 }).host ≠ ({ consoleLogDepth := 0 } : HostState) := by
  decide

/-- C5 amended: `runJavaScript` restores `console.log` on the success
path and leaves it untouched when the source fails to compile, but when
the evaluated code throws, the capturing wrapper remains installed
(binding depth grows by one). -/
theorem runJavaScript_consoleLog_cases (h : HostState) (logs : List String)
    (v : Nat) (e msg : String) :
    (runJavaScript (JsProgram.compileError msg) h).host = h ∧
    (runJavaScript (JsProgram.runs logs (Except.ok v)) h).host = h ∧
    (runJavaScript (JsProgram.runs logs (Except.error e)) h).host =
      { consoleLogDepth := h.consoleLogDepth + 1 } :=
  ⟨rfl, rfl, rfl⟩

/-! ### Claim C6 (confirmed) -/

/-- C6: `runJavaScript` always returns a result record and never
propagates a failure: a compile error or a throwing evaluation each
yield a record carrying the error description (and no result value),
while a successful evaluation yields the result value with the captured
log lines and no error. -/
theorem runJavaScript_never_throws (h : HostState) (p : JsProgram) :
    (∀ msg, p = JsProgram.compileError msg →
      runJavaScript p h =
        { host := h, result := none, stdout := none, error := some msg }) ∧
    (∀ logs e, p = JsProgram.runs logs (Except.error e) →
      (runJavaScript p h).error = some e ∧ (runJavaScript p h).result = none) ∧
    (∀ logs v, p = JsProgram.runs logs (Except.ok v) →
      (runJavaScript p h).error = none ∧ (runJavaScript p h).result = some v ∧
      (runJavaScript p h).stdout = some (String.intercalate "\n" logs)) := by
  refine ⟨?_, ?_, ?_⟩
  · intro msg hp
    subst hp
    rfl
  · intro logs e hp
    subst hp
    exact ⟨rfl, rfl⟩
  · intro logs v hp
    subst hp
    exact ⟨rfl, rfl, rfl⟩

/-- C6, witness: a throwing evaluation and a compile failure both come
back as error records. -/
theorem runJavaScript_never_throws_witness :
    (runJavaScript (JsProgram.runs ["hi"] (Except.error "Error: boom"))
        { consoleLogDepth := 0 }).error = some "Error: boom" ∧
    (runJavaScript (JsProgram.compileError "SyntaxError: unexpected token")
        { consoleLogDepth := 0 }).error = some "SyntaxError: unexpected token" := by
  constructor
  · exact ((runJavaScript_never_throws { consoleLogDepth := 0 }
      (JsProgram.runs ["hi"] (Except.error "Error: boom"))).2.1 ["hi"] "Error: boom" rfl).1
  · have H := (runJavaScript_never_throws { consoleLogDepth := 0 }
      (JsProgram.compileError "SyntaxError: unexpected token")).1
      "SyntaxError: unexpected token" rfl
    rw [H]

/-! ### Claim C7 (confirmed) -/

/-- C7: `installPackage` is a no-op (immediate success, no installer
invocation) on a cached name; `loadedPackages` only ever grows, both
under `installPackage` and under `runPython`; a successful call leaves
the name cached; and after a successful install the same name never
re-invokes the underlying installer. -/
theorem installPackage_cached_monotone (inst inst2 : Installer) (p : Program)
    (s : Session) (n : String) (hready : s.pyodideReady = true) :
    (s.loadedPackages.contains n = true →
      installPackage inst s n =
        { session := s, outcome := Except.ok (), attempts := [] }) ∧
    (∀ x ∈ s.loadedPackages, x ∈ (installPackage inst s n).session.loadedPackages) ∧
    (∀ x ∈ s.loadedPackages, x ∈ (runPython inst p s).session.loadedPackages) ∧
    ((installPackage inst s n).outcome = Except.ok () →
      (installPackage inst s n).session.loadedPackages.contains n = true) ∧
    ((installPackage inst s n).outcome = Except.ok () →
      (installPackage inst2 (installPackage inst s n).session n).attempts = []) := by
  have hmem : ∀ (inst3 : Installer) (s3 : Session) (n3 : String),
      ∀ x ∈ s3.loadedPackages, x ∈ (installPackage inst3 s3 n3).session.loadedPackages := by
    intro inst3 s3 n3 x hx
    simp only [installPackage]
    split
    · split
      · exact hx
      · split <;> simp [hx]
    · exact hx
  refine ⟨?_, hmem inst s n, ?_, ?_, ?_⟩
  · intro hc
    have hcm : n ∈ s.loadedPackages := by simpa using hc
    simp [installPackage, hready, hcm]
  · intro x hx
    simp only [runPython, hready, if_true]
    split
    · exact hx
    · simp only [runPythonCatch]
      split
      · split
        · exact hmem _ _ _ x hx
        · split
          · exact hmem _ _ _ x hx
          · exact hmem _ _ _ x hx
      · exact hx
  · intro hok
    by_cases hc : n ∈ s.loadedPackages
    · simp [installPackage, hready, hc]
    · cases hins : inst (installSource n) with
      | ok u => simp [installPackage, hready, hc, hins]
      | error e => simp [installPackage, hready, hc, hins] at hok
  · intro hok
    by_cases hc : n ∈ s.loadedPackages
    · simp [installPackage, hready, hc]
    · cases hins : inst (installSource n) with
      | ok u => simp [installPackage, hready, hc, hins]
      | error e => simp [installPackage, hready, hc, hins] at hok

/-- C7, witness: installing `foo` succeeds, and a second `installPackage`
of `foo` makes no installer attempt. -/
theorem installPackage_cached_monotone_witness :
    readySession.pyodideReady = true ∧
    (installPackage alwaysOkInstaller readySession "foo").outcome = Except.ok () ∧
    (installPackage alwaysOkInstaller
      (installPackage alwaysOkInstaller readySession "foo").session "foo").attempts = [] :=
  ⟨rfl, rfl,
    (installPackage_cached_monotone alwaysOkInstaller alwaysOkInstaller progPrintAB
      readySession "foo" rfl).2.2.2.2 rfl⟩

/-! ### Claim C8 (confirmed) -/

/-- C8: within one `runPython` call the returned stdout is the
concatenation, in emission order, of the chunks the user code wrote
(so `print` of `a` then `b` yields the two lines in order), and on the
successful recovery path the returned stdout is the two install status
lines followed by the whole captured buffer — the status lines appear
before any stdout produced by the retry. -/
theorem runPython_stdout_order (inst : Installer) (p : Program) (s : Session)
    (hready : s.pyodideReady = true) :
    (∀ em bs v, p s.engine.installed (engineBeforeEval s.engine).globals =
        { emitted := em, binds := bs, result := Except.ok v } →
      (runPython inst p s).outcome = Except.ok (v, String.join em)) ∧
    (∀ em1 bs1 err m em2 bs2 v2,
      p s.engine.installed (engineBeforeEval s.engine).globals =
        { emitted := em1, binds := bs1, result := Except.error err } →
      missingModuleName err = some m →
      s.loadedPackages.contains m = false →
      inst (installSource m) = Except.ok () →
      p (s.engine.installed ++ [m]) ((engineBeforeEval s.engine).globals ++ bs1) =
        { emitted := em2, binds := bs2, result := Except.ok v2 } →
      (runPython inst p s).outcome =
        Except.ok (v2, statusLine1 m ++ statusLine2 m ++ String.join (em1 ++ em2))) := by
  constructor
  · intro em bs v hp
    rw [runPython_ok_eq inst p s hready em bs v hp]
  · intro em1 bs1 err m em2 bs2 v2 hp1 hm hnew hi hp2
    rw [runPython_retryOk_eq inst p s hready em1 bs1 em2 bs2 err m v2 hp1 hm hnew hi hp2]

/-- C8, witness: user code printing `a` then `b` returns stdout with the
two lines in that order. -/
theorem runPython_stdout_order_witness :
    readySession.pyodideReady = true ∧
    (runPython alwaysOkInstaller progPrintAB readySession).outcome =
      Except.ok (0, "a\nb\n") := by
  constructor
  · rfl
  · have H := (runPython_stdout_order alwaysOkInstaller progPrintAB readySession rfl).1
      ["a\n", "b\n"] [] 0 rfl
    rw [H]
    rfl

/-! ### Claim C9 (confirmed) -/

/-- C9: any `runPython` call on a ready session — a failing one
included — leaves the session ready, with the loading and error status
fields untouched and `loadedPackages` unchanged except for at most the
one module a successful recovery install added; and a subsequent call on
the resulting session behaves normally, returning the full stdout of a
succeeding program. -/
theorem runPython_failure_keeps_ready (inst inst2 : Installer) (p p2 : Program)
    (s : Session) (hready : s.pyodideReady = true) :
    (runPython inst p s).session.pyodideReady = true ∧
    (runPython inst p s).session.loading = s.loading ∧
    (runPython inst p s).session.errored = s.errored ∧
    ((runPython inst p s).session.loadedPackages = s.loadedPackages ∨
      ∃ m, (runPython inst p s).session.loadedPackages = s.loadedPackages ++ [m]) ∧
    (∀ em bs v,
      p2 (runPython inst p s).session.engine.installed
        (engineBeforeEval (runPython inst p s).session.engine).globals =
        { emitted := em, binds := bs, result := Except.ok v } →
      (runPython inst2 p2 (runPython inst p s).session).outcome =
        Except.ok (v, String.join em)) := by
  have h := runPython_session_shape inst p s
  have hr : (runPython inst p s).session.pyodideReady = true := by rw [h.1, hready]
  refine ⟨hr, h.2.1, h.2.2.1, h.2.2.2, ?_⟩
  intro em bs v hp
  rw [runPython_ok_eq inst2 p2 _ hr em bs v hp]

/-- C9, witness: after `1/0` fails, running code that prints `ok` on the
same session succeeds with stdout `ok` plus newline. -/
theorem runPython_failure_keeps_ready_witness :
    readySession.pyodideReady = true ∧
    (runPython alwaysOkInstaller progDivZero readySession).session.pyodideReady = true ∧
    (runPython alwaysOkInstaller progPrintOk
      (runPython alwaysOkInstaller progDivZero readySession).session).outcome =
      Except.ok (7, "ok\n") := by
  have H := runPython_failure_keeps_ready alwaysOkInstaller alwaysOkInstaller
    progDivZero progPrintOk readySession rfl
  refine ⟨rfl, H.1, ?_⟩
  have H2 := H.2.2.2.2 ["ok\n"] [] 7 rfl
  rw [H2]
  rfl

/-! ### Claim C10 (confirmed) -/

/-- C10: `installPackage` validates nothing: any uncached name — the
empty string and non-identifier strings included — is spliced verbatim
between the fixed parts of the generated install source and delegated to
the underlying installer, and the call fails exactly when, and with
exactly the message with which, the underlying installer fails. -/
theorem installPackage_no_validation (inst : Installer) (s : Session) (n : String)
    (hready : s.pyodideReady = true)
    (hnew : s.loadedPackages.contains n = false) :
    (installPackage inst s n).attempts = [installSource n] ∧
    installSource n = installSourcePre ++ n ++ installSourcePost ∧
    (∀ e, (installPackage inst s n).outcome = Except.error e ↔
      inst (installSource n) = Except.error e) := by
  have hns : ¬ n ∈ s.loadedPackages := by simpa using hnew
  refine ⟨?_, rfl, ?_⟩
  · cases hins : inst (installSource n) with
    | ok u => simp [installPackage, hready, hns, hins]
    | error e => simp [installPackage, hready, hns, hins]
  · intro e
    cases hins : inst (installSource n) with
    | ok u => simp [installPackage, hready, hns, hins]
    | error e2 => simp [installPackage, hready, hns, hins]

/-- C10, witness: the empty string is passed through verbatim to the
underlying installer. -/
theorem installPackage_no_validation_witness :
    readySession.pyodideReady = true ∧
    readySession.loadedPackages.contains "" = false ∧
    (installPackage alwaysFailInstaller readySession "").attempts =
      [installSource ""] :=
  ⟨rfl, rfl,
    (installPackage_no_validation alwaysFailInstaller readySession "" rfl rfl).1⟩

end PyodideProvider
